import Mathlib

/-!
Verification of the OhmVision camera-fleet core, shallowly embedded from
`backend/services`: the reconnection scheduler and the health-check sweep
(`multi_channel_connector.py`, `health_check_service.py`), the connection
health tiers and multi-channel auto-detection (`multi_channel_connector.py`),
the stream broadcaster (`stream_manager.py`) and the WS-Discovery scanner
(`onvif_scanner.py`).

Modelling conventions: times and latencies (Python floats holding seconds or
milliseconds) are rationals; camera ids (Python ints) are integers; Python
dicts read with a default are total functions, dicts whose keys may be absent
map into `Option`; network and decoding outcomes are explicit parameters.
-/

/-! ## ReconnectionManager (multi_channel_connector.py, lines 366-432) -/

/-- Constructor arguments of `ReconnectionManager.__init__`.  Delays are in
seconds. -/
structure ReconnectionConfig where
  max_attempts : Nat
  initial_delay : ℚ
  max_delay : ℚ
  backoff_factor : ℚ
deriving DecidableEq

/-- Default arguments of `ReconnectionManager.__init__`:
`max_attempts: int = 5, initial_delay: float = 5.0, max_delay: float = 300.0,
backoff_factor: float = 2.0`. -/
def defaultReconnectionConfig : ReconnectionConfig :=
  ReconnectionConfig.mk 5 5 300 2

/-- Arguments `HealthCheckService.__init__` passes explicitly:
`ReconnectionManager(max_attempts=5, initial_delay=10.0, max_delay=300.0)`,
leaving `backoff_factor` at its default `2.0`. -/
def healthCheckReconnectionConfig : ReconnectionConfig :=
  ReconnectionConfig.mk 5 10 300 2

/-- Mutable state of a `ReconnectionManager`: `_attempts` is read with
`.get(camera_id, 0)`, so it is a total map defaulting to 0; `_last_attempt`
maps a camera id to its last failed-attempt timestamp when one is recorded. -/
structure ReconnectionState where
  attempts : ℤ → ℕ
  last_attempt : ℤ → Option ℚ

/-- Fresh manager: both dictionaries empty. -/
def ReconnectionState.empty : ReconnectionState :=
  ReconnectionState.mk (fun _ => 0) (fun _ => none)

/-- Embeds `ReconnectionManager.get_delay`:
`min(self.initial_delay * (self.backoff_factor ** attempts), self.max_delay)`
where `attempts = self._attempts.get(camera_id, 0)`. -/
def get_delay (cfg : ReconnectionConfig) (st : ReconnectionState) (camera_id : ℤ) : ℚ :=
  min (cfg.initial_delay * cfg.backoff_factor ^ st.attempts camera_id) cfg.max_delay

/-- The spec's backoff formula as a function of the attempt count alone:
`delay(attempts) = min(initialDelay * factor^attempts, maxDelay)`. -/
def delay_formula (cfg : ReconnectionConfig) (attempts : Nat) : ℚ :=
  min (cfg.initial_delay * cfg.backoff_factor ^ attempts) cfg.max_delay

/-- Embeds `ReconnectionManager.should_retry`, with the wall clock passed in
as `now`: returns `False` once `attempts >= max_attempts`, then `False` when
a last attempt is recorded and the elapsed time since it is below the current
delay, else `True`.  (A recorded `datetime` is always truthy, so the
`if last_attempt:` test in the source is exactly the `some` match.) -/
def should_retry (cfg : ReconnectionConfig) (st : ReconnectionState) (now : ℚ)
    (camera_id : ℤ) : Bool :=
  if cfg.max_attempts ≤ st.attempts camera_id then false
  else
    match st.last_attempt camera_id with
    | some t => if now - t < get_delay cfg st camera_id then false else true
    | none => true

/-- Embeds `ReconnectionManager.record_attempt` at clock time `now`: on
success the counter is set to 0 and the timestamp popped; on failure the
counter is incremented and the timestamp set to `now`. -/
def record_attempt (st : ReconnectionState) (camera_id : ℤ) (success : Bool)
    (now : ℚ) : ReconnectionState :=
  if success then
    ReconnectionState.mk
      (fun j => if j = camera_id then 0 else st.attempts j)
      (fun j => if j = camera_id then none else st.last_attempt j)
  else
    ReconnectionState.mk
      (fun j => if j = camera_id then st.attempts j + 1 else st.attempts j)
      (fun j => if j = camera_id then some now else st.last_attempt j)

/-- Embeds the offline branch of `HealthCheckService._check_single_camera`
(lines 179-193): record the failed check via
`record_attempt(camera.id, success=False)`, then consult
`should_retry(camera.id)` to decide whether `_attempt_reconnection` runs.
Both calls read the clock at the same instant `now`; the second component is
whether the reconnection attempt is reached. -/
def check_single_camera_offline (cfg : ReconnectionConfig) (st : ReconnectionState)
    (camera_id : ℤ) (now : ℚ) : ReconnectionState × Bool :=
  let st1 := record_attempt st camera_id false now
  (st1, should_retry cfg st1 now camera_id)

/-! ## Connection health check (multi_channel_connector.py, lines 329-363) -/

/-- Dictionary returned by `MultiChannelConnector.check_health`, with the
keys that vary by branch made optional. -/
structure HealthReport where
  status : String
  health : Option String
  response_time_ms : Option ℚ
  error : Option String
deriving DecidableEq

/-- Embeds the tier computation of `check_health` (lines 342-349): latency
below 500 ms is excellent, below 1500 good, below 3000 fair, else poor. -/
def health_tier (response_time_ms : ℚ) : String :=
  if response_time_ms < 500 then "excellent"
  else if response_time_ms < 1500 then "good"
  else if response_time_ms < 3000 then "fair"
  else "poor"

/-- Embeds `MultiChannelConnector.check_health` given the underlying test's
outcome (the dispatched `test_rtsp_connection` / `test_http_mjpeg` result's
`success`, `response_time_ms` and `error_message` fields): a known connection
type yields the online dictionary with the latency tier, or the offline
dictionary; any other type yields the unknown dictionary (lines 333-338). -/
def check_health (connection_type : String) (test_success : Bool)
    (test_response_time_ms : ℚ) (test_error : Option String) : HealthReport :=
  if connection_type = "rtsp" ∨ connection_type = "http_mjpeg" then
    if test_success then
      HealthReport.mk "online" (some (health_tier test_response_time_ms))
        (some test_response_time_ms) none
    else
      HealthReport.mk "offline" (some "offline") none test_error
  else
    HealthReport.mk "unknown" none none (some "Unknown connection type")

/-! ## Multi-channel auto-detection (multi_channel_connector.py, lines 269-323) -/

/-- Result of one connection test (the `ConnectionTest` dataclass), reduced to
the fields auto-detection inspects: the success flag, the connection kind of
the test that produced it, and the URL attempted. -/
structure ConnectionTest where
  success : Bool
  connection_type : String
  url : String
deriving DecidableEq

/-- Embeds one call of `test_rtsp_connection` / `test_http_mjpeg` /
`test_snapshot`: the network's behaviour is the oracle `net`, giving each
(connection kind, URL) attempt's success flag; every test returns a result
carrying its own kind and the URL it tried. -/
def run_connection_test (net : String → String → Bool) (kind url : String) :
    ConnectionTest :=
  ConnectionTest.mk (net kind url) kind url

/-- Candidate URL dictionary returned by `auto_detect_stream_urls`
(camera_profiles.py): its "rtsp", "http" and "snapshot" entries. -/
structure CandidateURLs where
  rtsp : List String
  http : List String
  snapshot : List String

/-- Embeds the first two loops of `auto_detect_best_connection`: try each
candidate of one kind in catalog order, appending every result to the test
list, and return at the first success.  Gives the results this loop collected
and the successful result when one occurred. -/
def try_candidates (net : String → String → Bool) (kind : String) :
    List String → List ConnectionTest × Option ConnectionTest
  | [] => ([], none)
  | url :: rest =>
    if (run_connection_test net kind url).success then
      ([run_connection_test net kind url], some (run_connection_test net kind url))
    else
      (run_connection_test net kind url :: (try_candidates net kind rest).1,
        (try_candidates net kind rest).2)

/-- Embeds the third loop of `auto_detect_best_connection`: every snapshot
candidate is attempted and recorded; a snapshot success is logged but does
not stop the loop and is never returned as the best connection. -/
def try_snapshot_candidates (net : String → String → Bool)
    (cands : List String) : List ConnectionTest :=
  cands.map (run_connection_test net "snapshot")

/-- Embeds `MultiChannelConnector.auto_detect_best_connection` given the
candidate URLs and the network oracle: RTSP candidates first, returning at
the first success, then HTTP MJPEG candidates likewise, then all snapshot
candidates; the result is the best connection (if any) paired with every test
made (`all_tests`). -/
def auto_detect_best_connection (net : String → String → Bool)
    (urls : CandidateURLs) : Option ConnectionTest × List ConnectionTest :=
  match (try_candidates net "rtsp" urls.rtsp).2 with
  | some r => (some r, (try_candidates net "rtsp" urls.rtsp).1)
  | none =>
    match (try_candidates net "http_mjpeg" urls.http).2 with
    | some r =>
      (some r, (try_candidates net "rtsp" urls.rtsp).1
        ++ (try_candidates net "http_mjpeg" urls.http).1)
    | none =>
      (none, (try_candidates net "rtsp" urls.rtsp).1
        ++ (try_candidates net "http_mjpeg" urls.http).1
        ++ try_snapshot_candidates net urls.snapshot)

/-- Modelled from the spec's ordering guarantee, for comparison with the
embedded auto-detection: the (kind, URL) attempts it should make — kinds in
the fixed priority order streaming, HTTP image, snapshot; candidates within a
kind in catalog order; the first streaming or HTTP success short-circuiting
everything after it; snapshot attempts never short-circuiting. -/
def spec_attempt_list (net : String → String → Bool) (urls : CandidateURLs) :
    List (String × String) :=
  if urls.rtsp.any (net "rtsp") then
    (urls.rtsp.takeWhile (fun u => ! net "rtsp" u)
      ++ (urls.rtsp.dropWhile (fun u => ! net "rtsp" u)).take 1).map
      (fun u => ("rtsp", u))
  else if urls.http.any (net "http_mjpeg") then
    urls.rtsp.map (fun u => ("rtsp", u))
      ++ (urls.http.takeWhile (fun u => ! net "http_mjpeg" u)
        ++ (urls.http.dropWhile (fun u => ! net "http_mjpeg" u)).take 1).map
        (fun u => ("http_mjpeg", u))
  else
    urls.rtsp.map (fun u => ("rtsp", u))
      ++ urls.http.map (fun u => ("http_mjpeg", u))
      ++ urls.snapshot.map (fun u => ("snapshot", u))

/-! ## StreamManager (stream_manager.py) -/

/-- Capacity of a subscriber queue: `Queue(maxsize=10)` in
`StreamManager.subscribe`. -/
def SUBSCRIBER_QUEUE_MAXSIZE : Nat := 10

/-- Embeds `queue.Queue.put_nowait` on a bounded subscriber queue: appends
when the queue has room, fails (raises `queue.Full`, here `none`) when it is
at capacity.  Never blocks. -/
def put_nowait {J : Type} (q : List J) (item : J) : Option (List J) :=
  if q.length < SUBSCRIBER_QUEUE_MAXSIZE then some (q ++ [item]) else none

/-- Embeds `StreamManager._notify_subscribers`: the frame is JPEG-encoded
once (`encode`), then pushed with `put_nowait` into every subscriber's queue
in map order; a subscriber whose push raises (queue full) is collected in
`dead_subscribers` and popped from the subscriber map afterwards, which is
the `filterMap` below.  The map is the association list of subscriber id and
queue in dict insertion order. -/
def notify_subscribers {F J : Type} (encode : F → J)
    (subscribers : List (String × List J)) (frame : F) :
    List (String × List J) :=
  let jpeg := encode frame
  subscribers.filterMap (fun p =>
    match put_nowait p.2 jpeg with
    | some q => some (p.1, q)
    | none => none)

/-- Fields of the `CameraStream` dataclass that the start logic reads:
`is_running` is `False` on construction and only the capture loop sets it
`True` (line 241), once its RTSP connection has opened. -/
structure CameraStream where
  camera_id : ℤ
  rtsp_url : String
  name : String
  is_running : Bool
deriving DecidableEq

/-- Embeds the fresh `CameraStream(camera_id=..., rtsp_url=..., name=...)`
built by `start_stream`: every other field keeps its dataclass default, in
particular `is_running = False`. -/
def CameraStream.new (camera_id : ℤ) (rtsp_url name : String) : CameraStream :=
  CameraStream.mk camera_id rtsp_url name false

/-- State of a `StreamManager`: the `_streams` dictionary, plus a ghost count
per camera of the capture threads started for it (`_start_capture_thread`
calls), so the capture-session invariant can be stated.  A started thread's
loop is not stopped by a later `start_stream` (only `stop_stream` sets its
stream's stop event). -/
structure StreamManagerState where
  streams : ℤ → Option CameraStream
  threads_started : ℤ → Nat

/-- Manager as constructed: no streams, no threads. -/
def StreamManagerState.empty : StreamManagerState :=
  StreamManagerState.mk (fun _ => none) (fun _ => 0)

/-- Embeds the guard of `start_stream` (line 67):
`camera_id in self._streams and self._streams[camera_id].is_running`. -/
def stream_already_running (s : StreamManagerState) (camera_id : ℤ) : Bool :=
  match s.streams camera_id with
  | some st => st.is_running
  | none => false

/-- Embeds `StreamManager.start_stream`: if the camera already has a session
marked running, return `True` and change nothing; otherwise store a fresh
`CameraStream` (replacing any existing non-running session without stopping
its thread), start a capture thread for it, and return `True`. -/
def start_stream (s : StreamManagerState) (camera_id : ℤ)
    (rtsp_url name : String) : Bool × StreamManagerState :=
  if stream_already_running s camera_id then (true, s)
  else
    (true, StreamManagerState.mk
      (fun j => if j = camera_id
        then some (CameraStream.new camera_id rtsp_url name)
        else s.streams j)
      (fun j => if j = camera_id
        then s.threads_started j + 1
        else s.threads_started j))

/-- Embeds the capture loop's connection step (lines 241-243): once the RTSP
connection opens, the loop sets its stream's `is_running = True` (the error
and reconnect-attempt resets there are not otherwise observed here). -/
def capture_loop_marks_running (s : StreamManagerState) (camera_id : ℤ) :
    StreamManagerState :=
  StreamManagerState.mk
    (fun j => if j = camera_id
      then (s.streams j).map
        (fun st => CameraStream.mk st.camera_id st.rtsp_url st.name true)
      else s.streams j)
    s.threads_started

/-- Concrete manager state for witnesses: camera 1 started and its capture
loop connected, so its session is marked running. -/
def exampleRunningManagerState : StreamManagerState :=
  capture_loop_marks_running
    (start_stream StreamManagerState.empty 1 "rtsp://cam" "Cam").2 1

/-! ## ONVIF WS-Discovery scanner (onvif_scanner.py) -/

/-- Fields of the `ONVIFCamera` dataclass that probe-response parsing sets
(the `firmware`, `rtsp_port` and `profiles` fields always keep their defaults
there and are omitted). -/
structure ONVIFCamera where
  ip : String
  port : Nat
  name : String
  manufacturer : String
  model : String
  hardware_id : String
  xaddr : String
  scopes : List String
deriving DecidableEq

/-- Python `needle in s` on strings: the split on the needle has more than
one piece. -/
def has_substring (s pat : String) : Bool :=
  1 < (s.splitOn pat).length

/-- Python `str.split()` with no separator: split on whitespace runs,
dropping empty pieces. -/
def split_whitespace (s : String) : List String :=
  (s.split Char.isWhitespace).filter (fun t => t ≠ "")

/-- Value of a hexadecimal digit, if it is one. -/
def hex_digit_value (c : Char) : Option Nat :=
  if '0' ≤ c ∧ c ≤ '9' then some (c.toNat - '0'.toNat)
  else if 'a' ≤ c ∧ c ≤ 'f' then some (c.toNat - 'a'.toNat + 10)
  else if 'A' ≤ c ∧ c ≤ 'F' then some (c.toNat - 'A'.toNat + 10)
  else none

/-- Percent-decoding behind `urllib.parse.unquote`, modelled one escape at a
time with each %XX byte read as a code point (multi-byte UTF-8 escapes, which
cannot occur in the claims here, are out of scope); an invalid escape is kept
literally, as `unquote` keeps it. -/
def percent_decode_chars : List Char → List Char
  | [] => []
  | '%' :: h1 :: h2 :: rest =>
    match hex_digit_value h1, hex_digit_value h2 with
    | some a, some b => Char.ofNat (16 * a + b) :: percent_decode_chars rest
    | _, _ => '%' :: percent_decode_chars (h1 :: h2 :: rest)
  | c :: rest => c :: percent_decode_chars rest

/-- String form of `percent_decode_chars`. -/
def percent_decode (s : String) : String :=
  String.mk (percent_decode_chars s.data)

/-- Vendor names the scope parser matches a path part against (lines
201-203). -/
def onvif_vendor_names : List String :=
  ["hikvision", "dahua", "axis", "bosch", "panasonic", "samsung", "sony",
   "vivotek", "hanwha", "uniview", "reolink"]

/-- Embeds the inner loop over `parts = scope.split('/')` (lines 199-206):
a part whose lowercase form is a known vendor name sets the manufacturer; a
part containing "model" followed by a further part sets the model to that
next part; later matches overwrite earlier ones. -/
def parse_vendor_scope (parts : List String) (mfr model : String) :
    String × String :=
  parts.enum.foldl
    (fun acc p =>
      if onvif_vendor_names.contains p.2.toLower then (p.2, acc.2)
      else if has_substring p.2.toLower "model" = true ∧ p.1 + 1 < parts.length
        then (acc.1, parts.getD (p.1 + 1) "")
      else acc)
    (mfr, model)

/-- Name, hardware id, manufacturer and model extracted from the scope
list. -/
structure ScopeInfo where
  name : String
  hardware_id : String
  manufacturer : String
  model : String
deriving DecidableEq

/-- Embeds the loop over scopes (lines 187-206): a scope containing
`/name/` sets the name to the unquoted last piece after that marker, one
containing `/hardware/` sets the hardware id, location and type scopes are
skipped, and any other scope is scanned for vendor and model parts. -/
def parse_scopes (scopes : List String) : ScopeInfo :=
  scopes.foldl
    (fun acc scope =>
      let lower := scope.toLower
      if has_substring lower "/name/" then
        ScopeInfo.mk (percent_decode ((scope.splitOn "/name/").getLastD ""))
          acc.hardware_id acc.manufacturer acc.model
      else if has_substring lower "/hardware/" then
        ScopeInfo.mk acc.name ((scope.splitOn "/hardware/").getLastD "")
          acc.manufacturer acc.model
      else if has_substring lower "/location/" then acc
      else if has_substring lower "onvif.org/type/" then acc
      else
        let vm := parse_vendor_scope (scope.splitOn "/") acc.manufacturer acc.model
        ScopeInfo.mk acc.name acc.hardware_id vm.1 vm.2)
    (ScopeInfo.mk "" "" "" "")

/-- Embeds the regex search `:(\d+)/` (line 211) over the service address: the
first colon followed by a non-empty maximal digit run followed by a slash
yields that run's value. -/
def find_port_match : List Char → Option Nat
  | [] => none
  | c :: rest =>
    if c = ':' then
      let digits := rest.takeWhile Char.isDigit
      let after := rest.dropWhile Char.isDigit
      if digits ≠ [] ∧ after.headD 'x' = '/' then
        some (digits.foldl (fun n d => 10 * n + (d.toNat - '0'.toNat)) 0)
      else find_port_match rest
    else find_port_match rest

/-- Embeds the port extraction (lines 209-213): default 80, overridden by the
first `:(\d+)/` match in the service address. -/
def parse_port_from_xaddr (xaddr : String) : Nat :=
  match find_port_match xaddr.data with
  | some p => p
  | none => 80

/-- The XML content of a decoded probe reply, as `ET.fromstring` sees it:
either it raises (`malformed`), or it yields a tree from which the `XAddrs`
and `Scopes` element texts are read (absent element or `None` text both map
to `none`). -/
inductive ProbeXML where
  | malformed : ProbeXML
  | parsed (xaddrs_text : Option String) (scopes_text : Option String) : ProbeXML
deriving DecidableEq

/-- One datagram the discovery loop receives: either its bytes fail UTF-8
decoding (`data.decode('utf-8')` raises, caught by the receive loop's
`except`, which continues), or they decode to XML content. -/
inductive ProbeReply where
  | undecodable : ProbeReply
  | decoded (xml : ProbeXML) : ProbeReply
deriving DecidableEq

/-- The record `_parse_probe_response` builds in its `except` branch:
`ONVIFCamera(ip=ip, name=f"Camera-...")` with every other field at its
default. -/
def fallback_camera (ip : String) : ONVIFCamera :=
  ONVIFCamera.mk ip 80 (String.append "Camera-" ip) "" "" "" "" []

/-- Embeds `ONVIFScanner._parse_probe_response` on a decoded reply: a reply
whose XML does not parse yields the fallback record, and so does a truthy
all-whitespace `XAddrs` text (whose `.split()[0]` raises IndexError into the
same `except`); otherwise the camera record is built from the first `XAddrs`
URL, the whitespace-split scopes, the scope-derived name/vendor/model/
hardware id (empty name replaced by the fallback name) and the port parsed
from the service address. -/
def parse_probe_response (xml : ProbeXML) (ip : String) : ONVIFCamera :=
  match xml with
  | ProbeXML.malformed => fallback_camera ip
  | ProbeXML.parsed xaddrs_text scopes_text =>
    let xaddrOpt : Option String :=
      match xaddrs_text with
      | none => some ""
      | some t => if t = "" then some "" else (split_whitespace t).head?
    match xaddrOpt with
    | none => fallback_camera ip
    | some xaddr =>
      let scopes : List String :=
        match scopes_text with
        | none => []
        | some t => if t = "" then [] else split_whitespace t
      let info := parse_scopes scopes
      ONVIFCamera.mk ip (parse_port_from_xaddr xaddr)
        (if info.name = "" then String.append "Camera-" ip else info.name)
        info.manufacturer info.model info.hardware_id xaddr scopes

/-- Embeds the receive loop of `ONVIFScanner.discover`: `found` is
`found_ips` (updated before decoding, so every later datagram from the same
address is skipped), `cams` the cameras collected so far.  An undecodable
datagram raises inside the loop and is skipped by the `except ... continue`;
a decoded one always appends a record, since `_parse_probe_response` always
returns a (truthy) `ONVIFCamera`. -/
def discover_loop (found : List String) (cams : List ONVIFCamera) :
    List (String × ProbeReply) → List ONVIFCamera
  | [] => cams
  | (ip, reply) :: rest =>
    if ip ∈ found then discover_loop found cams rest
    else
      match reply with
      | ProbeReply.undecodable => discover_loop (ip :: found) cams rest
      | ProbeReply.decoded xml =>
        discover_loop (ip :: found) (cams ++ [parse_probe_response xml ip]) rest

/-- Embeds `ONVIFScanner.discover` on the list of datagrams received before
the socket timeout, each with its source address. -/
def discover (replies : List (String × ProbeReply)) : List ONVIFCamera :=
  discover_loop [] [] replies

/-- First reply kept per source address, in arrival order: the replies the
receive loop actually processes. -/
def first_replies (seen : List String) :
    List (String × ProbeReply) → List (String × ProbeReply)
  | [] => []
  | (ip, r) :: rest =>
    if ip ∈ seen then first_replies seen rest
    else (ip, r) :: first_replies (ip :: seen) rest

/-! ## Theorems about the reconnection scheduler -/

/-- Claim C4: for every camera id and recorded attempt count, the computed
delay equals `min(initial_delay * backoff_factor^attempts, max_delay)`, and
for `backoff_factor ≥ 1` and non-negative `initial_delay` this delay is
monotonically non-decreasing in the attempt count. -/
theorem getDelayMatchesFormulaAndMonotone (cfg : ReconnectionConfig)
    (st : ReconnectionState) (camera_id : ℤ) :
    get_delay cfg st camera_id
      = min (cfg.initial_delay * cfg.backoff_factor ^ st.attempts camera_id)
          cfg.max_delay
    ∧ (0 ≤ cfg.initial_delay → 1 ≤ cfg.backoff_factor →
        ∀ a b : Nat, a ≤ b → delay_formula cfg a ≤ delay_formula cfg b) := by
  refine ⟨rfl, fun hinit hfac a b hab => ?_⟩
  unfold delay_formula
  have hpow : cfg.backoff_factor ^ a ≤ cfg.backoff_factor ^ b :=
    pow_le_pow_right₀ hfac hab
  exact min_le_min (mul_le_mul_of_nonneg_left hpow hinit) le_rfl

/-- Claim C5: once the recorded attempt count reaches `max_attempts`,
`should_retry` returns `False` at every clock time. -/
theorem shouldRetryFalseAtMaxAttempts (cfg : ReconnectionConfig)
    (st : ReconnectionState) (now : ℚ) (camera_id : ℤ)
    (h : cfg.max_attempts ≤ st.attempts camera_id) :
    should_retry cfg st now camera_id = false := by
  unfold should_retry
  simp [h]

/-- Witness for C5: five recorded attempts against the default
`max_attempts = 5`, long after the last attempt. -/
theorem shouldRetryFalseAtMaxAttemptsWitness :
    should_retry defaultReconnectionConfig
      (ReconnectionState.mk (fun _ => 5) (fun _ => some 0)) 100000 7 = false :=
  shouldRetryFalseAtMaxAttempts defaultReconnectionConfig
    (ReconnectionState.mk (fun _ => 5) (fun _ => some 0)) 100000 7 (by decide)

/-- Counterexample to claim C6 as stated: with `max_attempts = 0` (a value
the constructor accepts), `should_retry` is `False` even immediately after a
recorded success, because `attempts >= max_attempts` already holds at 0. -/
theorem recordSuccessRetryCounterexample :
    should_retry (ReconnectionConfig.mk 0 5 300 2)
      (record_attempt ReconnectionState.empty 1 true 0) 0 1 = false := by
  decide

/-- Claim C6 (amended: provided `max_attempts ≥ 1`, as in both in-repo
configurations): after `record_attempt(camera_id, success=True)` the attempt
count is 0, the last-attempt timestamp is cleared, `should_retry` is `True`
at every clock time with no cooldown, and recording a success again leaves
the state unchanged. -/
theorem recordSuccessResetsState (cfg : ReconnectionConfig)
    (st : ReconnectionState) (camera_id : ℤ) (now t now2 : ℚ)
    (h : 1 ≤ cfg.max_attempts) :
    (record_attempt st camera_id true now).attempts camera_id = 0
    ∧ (record_attempt st camera_id true now).last_attempt camera_id = none
    ∧ should_retry cfg (record_attempt st camera_id true now) t camera_id = true
    ∧ record_attempt (record_attempt st camera_id true now) camera_id true now2
        = record_attempt st camera_id true now := by
  have h0 : (record_attempt st camera_id true now).attempts camera_id = 0 := by
    simp [record_attempt]
  have h1 : (record_attempt st camera_id true now).last_attempt camera_id = none := by
    simp [record_attempt]
  refine ⟨h0, h1, ?_, ?_⟩
  · unfold should_retry
    rw [h0, h1]
    have hno : ¬ cfg.max_attempts ≤ 0 := by omega
    simp [hno]
  · unfold record_attempt
    simp only [if_pos]
    congr 1
    · funext j
      by_cases hj : j = camera_id <;> simp [record_attempt, hj]
    · funext j
      by_cases hj : j = camera_id <;> simp [record_attempt, hj]

/-- Witness for C6 (amended) at the default configuration. -/
theorem recordSuccessResetsStateWitness :
    (record_attempt ReconnectionState.empty 3 true 7).attempts 3 = 0
    ∧ (record_attempt ReconnectionState.empty 3 true 7).last_attempt 3 = none
    ∧ should_retry defaultReconnectionConfig
        (record_attempt ReconnectionState.empty 3 true 7) 7 3 = true
    ∧ record_attempt (record_attempt ReconnectionState.empty 3 true 7) 3 true 9
        = record_attempt ReconnectionState.empty 3 true 7 :=
  recordSuccessResetsState defaultReconnectionConfig ReconnectionState.empty
    3 7 7 9 (by decide)

/-- Counterexample to claim C3 as stated: `initial_delay > 0` alone does not
make `should_retry` false right after a recorded failure.  With
`max_delay = 0` (constructor-acceptable) the computed delay collapses to 0,
the elapsed time 0 is not below it, and the health-check offline branch does
reach its reconnection attempt in the same check. -/
theorem offlineCheckRetryCounterexample :
    0 < (ReconnectionConfig.mk 5 10 0 2).initial_delay
    ∧ (check_single_camera_offline (ReconnectionConfig.mk 5 10 0 2)
        ReconnectionState.empty 1 0).2 = true := by
  refine ⟨by norm_num, ?_⟩
  show should_retry (ReconnectionConfig.mk 5 10 0 2)
    (record_attempt ReconnectionState.empty 1 false 0) 0 1 = true
  have hat : (record_attempt ReconnectionState.empty 1 false 0).attempts 1 = 1 := by
    simp [record_attempt, ReconnectionState.empty]
  have hla : (record_attempt ReconnectionState.empty 1 false 0).last_attempt 1
      = some 0 := by
    simp [record_attempt, ReconnectionState.empty]
  have hd : get_delay (ReconnectionConfig.mk 5 10 0 2)
      (record_attempt ReconnectionState.empty 1 false 0) 1 = 0 := by
    unfold get_delay
    rw [hat]
    norm_num
  unfold should_retry
  rw [hla, hd, hat]
  norm_num

/-- Claim C3 (amended: when `initial_delay`, `backoff_factor` and `max_delay`
are all positive, as in the health-check service's configuration):
immediately after `record_attempt(camera_id, success=False)`, `should_retry`
evaluated at the same instant returns `False`, so the health-check sweep
never reaches its reconnection attempt within the check that observed the
failure. -/
theorem offlineCheckNeverRetriesImmediately (cfg : ReconnectionConfig)
    (st : ReconnectionState) (camera_id : ℤ) (now : ℚ)
    (hinit : 0 < cfg.initial_delay) (hfac : 0 < cfg.backoff_factor)
    (hmax : 0 < cfg.max_delay) :
    (check_single_camera_offline cfg st camera_id now).2 = false := by
  show should_retry cfg (record_attempt st camera_id false now) now camera_id = false
  have hla : (record_attempt st camera_id false now).last_attempt camera_id
      = some now := by
    simp [record_attempt]
  have hd : 0 < get_delay cfg (record_attempt st camera_id false now) camera_id :=
    lt_min (mul_pos hinit (pow_pos hfac _)) hmax
  unfold should_retry
  by_cases hm : cfg.max_attempts ≤ (record_attempt st camera_id false now).attempts camera_id
  · simp [hm]
  · rw [hla]
    simp [hm, sub_self, hd]

/-- Witness for C3 (amended) at the health-check service's configuration. -/
theorem offlineCheckNeverRetriesImmediatelyWitness :
    (check_single_camera_offline healthCheckReconnectionConfig
      ReconnectionState.empty 1 0).2 = false :=
  offlineCheckNeverRetriesImmediately healthCheckReconnectionConfig
    ReconnectionState.empty 1 0 (by norm_num [healthCheckReconnectionConfig])
    (by norm_num [healthCheckReconnectionConfig])
    (by norm_num [healthCheckReconnectionConfig])

/-- Counterexample to claim C9 as stated: the default `initial_delay` of
`ReconnectionManager.__init__` is 5.0 seconds, not 10. -/
theorem defaultInitialDelayIsFiveNotTen :
    defaultReconnectionConfig.initial_delay = 5 ∧ (5 : ℚ) ≠ 10 := by
  refine ⟨rfl, by norm_num⟩

/-- Claim C9 (amended): constructed without explicit arguments, the scheduler
defaults to an initial delay of 5 seconds (10 seconds is what the health-check
service passes explicitly), backoff factor 2.0, maximum delay 300 seconds and
a maximum of 5 attempts. -/
theorem defaultReconnectionConfigValues :
    defaultReconnectionConfig.max_attempts = 5
    ∧ defaultReconnectionConfig.initial_delay = 5
    ∧ defaultReconnectionConfig.max_delay = 300
    ∧ defaultReconnectionConfig.backoff_factor = 2
    ∧ healthCheckReconnectionConfig.max_attempts = 5
    ∧ healthCheckReconnectionConfig.initial_delay = 10
    ∧ healthCheckReconnectionConfig.max_delay = 300
    ∧ healthCheckReconnectionConfig.backoff_factor = 2 :=
  ⟨rfl, rfl, rfl, rfl, rfl, rfl, rfl, rfl⟩

/-! ## Theorems about the connection health check -/

/-- Helper: exact characterization of the latency tier computed at lines
342-349, with each boundary exact. -/
theorem healthTierCharacterization (rt : ℚ) :
    (health_tier rt = "excellent" ↔ rt < 500)
    ∧ (health_tier rt = "good" ↔ 500 ≤ rt ∧ rt < 1500)
    ∧ (health_tier rt = "fair" ↔ 1500 ≤ rt ∧ rt < 3000)
    ∧ (health_tier rt = "poor" ↔ 3000 ≤ rt) := by
  unfold health_tier
  by_cases h1 : rt < 500
  · simp only [if_pos h1]
    refine ⟨iff_of_true trivial h1, iff_of_false (by decide) ?_,
      iff_of_false (by decide) ?_, iff_of_false (by decide) ?_⟩
    · exact fun hc => not_lt.mpr hc.1 h1
    · exact fun hc => not_lt.mpr (le_trans (by norm_num) hc.1) h1
    · exact fun hc => not_lt.mpr (le_trans (by norm_num) hc) h1
  · simp only [if_neg h1]
    by_cases h2 : rt < 1500
    · simp only [if_pos h2]
      refine ⟨iff_of_false (by decide) h1, iff_of_true trivial ⟨not_lt.mp h1, h2⟩,
        iff_of_false (by decide) ?_, iff_of_false (by decide) ?_⟩
      · exact fun hc => not_lt.mpr hc.1 h2
      · exact fun hc => not_lt.mpr (le_trans (by norm_num) hc) h2
    · simp only [if_neg h2]
      by_cases h3 : rt < 3000
      · simp only [if_pos h3]
        refine ⟨iff_of_false (by decide) h1, iff_of_false (by decide) ?_,
          iff_of_true trivial ⟨not_lt.mp h2, h3⟩, iff_of_false (by decide) ?_⟩
        · exact fun hc => h2 hc.2
        · exact fun hc => not_lt.mpr hc h3
      · simp only [if_neg h3]
        refine ⟨iff_of_false (by decide) h1, iff_of_false (by decide) ?_,
          iff_of_false (by decide) ?_, iff_of_true trivial (not_lt.mp h3)⟩
        · exact fun hc => h2 hc.2
        · exact fun hc => h3 hc.2

/-- Claim C7: for a connection type the health check tests, the tier is a
pure total function of the online flag and the latency: online with latency
below 500 ms is excellent, in [500, 1500) good, in [1500, 3000) fair, at
3000 or more poor, with the boundaries exact; a failed test yields the
offline status and tier. -/
theorem checkHealthTierThresholds (connection_type : String) (rt : ℚ)
    (err : Option String)
    (hct : connection_type = "rtsp" ∨ connection_type = "http_mjpeg") :
    ((check_health connection_type true rt err).health = some "excellent" ↔ rt < 500)
    ∧ ((check_health connection_type true rt err).health = some "good"
        ↔ 500 ≤ rt ∧ rt < 1500)
    ∧ ((check_health connection_type true rt err).health = some "fair"
        ↔ 1500 ≤ rt ∧ rt < 3000)
    ∧ ((check_health connection_type true rt err).health = some "poor" ↔ 3000 ≤ rt)
    ∧ (check_health connection_type true rt err).status = "online"
    ∧ (check_health connection_type false rt err).health = some "offline"
    ∧ (check_health connection_type false rt err).status = "offline" := by
  have hon : check_health connection_type true rt err
      = HealthReport.mk "online" (some (health_tier rt)) (some rt) none := by
    unfold check_health
    rw [if_pos hct]
    rfl
  have hoff : check_health connection_type false rt err
      = HealthReport.mk "offline" (some "offline") none err := by
    unfold check_health
    rw [if_pos hct]
    rfl
  obtain ⟨e1, e2, e3, e4⟩ := healthTierCharacterization rt
  rw [hon, hoff]
  refine ⟨?_, ?_, ?_, ?_, rfl, rfl, rfl⟩
  · show some (health_tier rt) = some "excellent" ↔ rt < 500
    simp only [Option.some.injEq]
    exact e1
  · show some (health_tier rt) = some "good" ↔ 500 ≤ rt ∧ rt < 1500
    simp only [Option.some.injEq]
    exact e2
  · show some (health_tier rt) = some "fair" ↔ 1500 ≤ rt ∧ rt < 3000
    simp only [Option.some.injEq]
    exact e3
  · show some (health_tier rt) = some "poor" ↔ 3000 ≤ rt
    simp only [Option.some.injEq]
    exact e4

/-- Witness for C7 at the rtsp kind and a 499 ms latency. -/
theorem checkHealthTierThresholdsWitness :
    ((check_health "rtsp" true 499 none).health = some "excellent" ↔ (499 : ℚ) < 500)
    ∧ ((check_health "rtsp" true 499 none).health = some "good"
        ↔ (500 : ℚ) ≤ 499 ∧ (499 : ℚ) < 1500)
    ∧ ((check_health "rtsp" true 499 none).health = some "fair"
        ↔ (1500 : ℚ) ≤ 499 ∧ (499 : ℚ) < 3000)
    ∧ ((check_health "rtsp" true 499 none).health = some "poor" ↔ (3000 : ℚ) ≤ 499)
    ∧ (check_health "rtsp" true 499 none).status = "online"
    ∧ (check_health "rtsp" false 499 none).health = some "offline"
    ∧ (check_health "rtsp" false 499 none).status = "offline" :=
  checkHealthTierThresholds "rtsp" 499 none (Or.inl rfl)

/-! ## Theorems about multi-channel auto-detection -/

/-- Helper: a candidate loop finds a success exactly when some candidate of
its kind succeeds. -/
theorem try_candidates_isSome (net : String → String → Bool) (kind : String) :
    ∀ cands : List String,
      (try_candidates net kind cands).2.isSome = cands.any (net kind)
  | [] => rfl
  | u :: rest => by
    by_cases h : net kind u = true
    · simp [try_candidates, run_connection_test, h]
    · simp [try_candidates, run_connection_test, h,
        try_candidates_isSome net kind rest]

/-- Helper: with no successful candidate of its kind, the loop records one
failed test per candidate, in catalog order, and finds nothing. -/
theorem try_candidates_none (net : String → String → Bool) (kind : String) :
    ∀ cands : List String, cands.any (net kind) = false →
      try_candidates net kind cands
        = (cands.map (run_connection_test net kind), none)
  | [], _ => rfl
  | u :: rest, h => by
    rw [List.any_cons, Bool.or_eq_false_iff] at h
    simp [try_candidates, run_connection_test, h.1,
      try_candidates_none net kind rest h.2]

/-- Helper: with a successful candidate, the loop records exactly the failing
prefix and the first success, in catalog order. -/
theorem try_candidates_some (net : String → String → Bool) (kind : String) :
    ∀ cands : List String, cands.any (net kind) = true →
      (try_candidates net kind cands).1
        = (cands.takeWhile (fun u => ! net kind u)
            ++ (cands.dropWhile (fun u => ! net kind u)).take 1).map
            (run_connection_test net kind)
  | [], h => by simp at h
  | u :: rest, h => by
    by_cases hu : net kind u = true
    · simp [try_candidates, run_connection_test, hu, List.takeWhile_cons,
        List.dropWhile_cons]
    · have hrest : rest.any (net kind) = true := by
        rw [List.any_cons] at h
        simpa [hu] using h
      simp [try_candidates, run_connection_test, hu, List.takeWhile_cons,
        List.dropWhile_cons, try_candidates_some net kind rest hrest]

/-- Helper: a candidate loop over a non-empty candidate list makes at least
one attempt. -/
theorem try_candidates_ne_nil (net : String → String → Bool) (kind : String) :
    ∀ cands : List String, cands ≠ [] → (try_candidates net kind cands).1 ≠ []
  | [], h => absurd rfl h
  | u :: rest, _ => by
    by_cases hu : net kind u = true <;>
      simp [try_candidates, run_connection_test, hu]

/-- Helper: auto-detection when some streaming candidate succeeds. -/
theorem auto_detect_rtsp_some (net : String → String → Bool)
    (urls : CandidateURLs) (res : ConnectionTest)
    (h : (try_candidates net "rtsp" urls.rtsp).2 = some res) :
    auto_detect_best_connection net urls
      = (some res, (try_candidates net "rtsp" urls.rtsp).1) := by
  unfold auto_detect_best_connection
  rw [h]

/-- Helper: auto-detection when streaming fails and an HTTP candidate
succeeds. -/
theorem auto_detect_http_some (net : String → String → Bool)
    (urls : CandidateURLs) (res : ConnectionTest)
    (h1 : (try_candidates net "rtsp" urls.rtsp).2 = none)
    (h2 : (try_candidates net "http_mjpeg" urls.http).2 = some res) :
    auto_detect_best_connection net urls
      = (some res, (try_candidates net "rtsp" urls.rtsp).1
          ++ (try_candidates net "http_mjpeg" urls.http).1) := by
  unfold auto_detect_best_connection
  rw [h1, h2]

/-- Helper: auto-detection when streaming and HTTP both fail throughout. -/
theorem auto_detect_both_none (net : String → String → Bool)
    (urls : CandidateURLs)
    (h1 : (try_candidates net "rtsp" urls.rtsp).2 = none)
    (h2 : (try_candidates net "http_mjpeg" urls.http).2 = none) :
    auto_detect_best_connection net urls
      = (none, (try_candidates net "rtsp" urls.rtsp).1
          ++ (try_candidates net "http_mjpeg" urls.http).1
          ++ try_snapshot_candidates net urls.snapshot) := by
  unfold auto_detect_best_connection
  rw [h1, h2]

/-- Helper: a kind with no success has its loop deliver no result. -/
theorem try_candidates_eq_none (net : String → String → Bool) (kind : String)
    (cands : List String) (h : cands.any (net kind) = false) :
    (try_candidates net kind cands).2 = none := by
  rw [try_candidates_none net kind cands h]

/-- Helper: a kind with a success has its loop deliver one. -/
theorem try_candidates_exists_some (net : String → String → Bool)
    (kind : String) (cands : List String) (h : cands.any (net kind) = true) :
    ∃ res, (try_candidates net kind cands).2 = some res := by
  have hs : (try_candidates net kind cands).2.isSome = true := by
    rw [try_candidates_isSome]
    exact h
  exact Option.isSome_iff_exists.mp hs

/-- Helper: the first component of a failing candidate loop. -/
theorem try_candidates_none_fst (net : String → String → Bool) (kind : String)
    (cands : List String) (h : cands.any (net kind) = false) :
    (try_candidates net kind cands).1
      = cands.map (run_connection_test net kind) := by
  rw [try_candidates_none net kind cands h]

/-- Helper: projecting a mapped test list onto (kind, URL) pairs. -/
theorem map_pair_run (net : String → String → Bool) (kind : String)
    (cands : List String) :
    (cands.map (run_connection_test net kind)).map
        (fun r => (r.connection_type, r.url))
      = cands.map (fun u => (kind, u)) := by
  rw [List.map_map]
  rfl

/-- Claim C8: within one auto-detection call, connection kinds are tried in
the fixed priority order streaming, HTTP image, snapshot, with candidates
within a kind in catalog order; if any streaming candidate succeeds, no HTTP
image or snapshot candidate is attempted; the all-tests list holds exactly
one entry per attempt actually made (it equals the spec-side attempt list),
and it is non-empty whenever at least one candidate URL exists. -/
theorem autoDetectPriorityAndAttempts (net : String → String → Bool)
    (urls : CandidateURLs) :
    (auto_detect_best_connection net urls).2.map
        (fun r => (r.connection_type, r.url)) = spec_attempt_list net urls
    ∧ (urls.rtsp.any (net "rtsp") = true →
        ∀ r ∈ (auto_detect_best_connection net urls).2,
          r.connection_type = "rtsp")
    ∧ ((urls.rtsp ≠ [] ∨ urls.http ≠ [] ∨ urls.snapshot ≠ []) →
        (auto_detect_best_connection net urls).2 ≠ []) := by
  by_cases hr : urls.rtsp.any (net "rtsp") = true
  · obtain ⟨res, hres⟩ := try_candidates_exists_some net "rtsp" urls.rtsp hr
    rw [auto_detect_rtsp_some net urls res hres]
    have hmap : (try_candidates net "rtsp" urls.rtsp).1.map
        (fun r => (r.connection_type, r.url))
        = (urls.rtsp.takeWhile (fun u => ! net "rtsp" u)
            ++ (urls.rtsp.dropWhile (fun u => ! net "rtsp" u)).take 1).map
            (fun u => ("rtsp", u)) := by
      rw [try_candidates_some net "rtsp" urls.rtsp hr]
      exact map_pair_run net "rtsp" _
    have hspec : spec_attempt_list net urls
        = (urls.rtsp.takeWhile (fun u => ! net "rtsp" u)
            ++ (urls.rtsp.dropWhile (fun u => ! net "rtsp" u)).take 1).map
            (fun u => ("rtsp", u)) := by
      unfold spec_attempt_list
      rw [if_pos hr]
    refine ⟨by rw [hmap, hspec], ?_, ?_⟩
    · intro _ r hrm
      have hin : (r.connection_type, r.url)
          ∈ (try_candidates net "rtsp" urls.rtsp).1.map
              (fun r => (r.connection_type, r.url)) :=
        List.mem_map_of_mem _ hrm
      rw [hmap] at hin
      obtain ⟨u, _, hequ⟩ := List.mem_map.mp hin
      exact (congrArg Prod.fst hequ).symm
    · intro _
      refine try_candidates_ne_nil net "rtsp" urls.rtsp ?_
      intro hnil
      rw [hnil] at hr
      simp at hr
  · have heq : urls.rtsp.any (net "rtsp") = false := by simpa using hr
    have hrnone := try_candidates_eq_none net "rtsp" urls.rtsp heq
    by_cases hh : urls.http.any (net "http_mjpeg") = true
    · obtain ⟨res, hres⟩ := try_candidates_exists_some net "http_mjpeg" urls.http hh
      rw [auto_detect_http_some net urls res hrnone hres]
      refine ⟨?_, fun hcontra => absurd hcontra hr, ?_⟩
      · rw [List.map_append, try_candidates_none_fst net "rtsp" urls.rtsp heq,
          map_pair_run, try_candidates_some net "http_mjpeg" urls.http hh,
          map_pair_run]
        unfold spec_attempt_list
        rw [if_neg hr, if_pos hh]
      · intro _ hnil
        obtain ⟨h1, h2⟩ := List.append_eq_nil.mp hnil
        refine try_candidates_ne_nil net "http_mjpeg" urls.http ?_ h2
        intro hnil2
        rw [hnil2] at hh
        simp at hh
    · have heq2 : urls.http.any (net "http_mjpeg") = false := by simpa using hh
      have hhnone := try_candidates_eq_none net "http_mjpeg" urls.http heq2
      rw [auto_detect_both_none net urls hrnone hhnone]
      refine ⟨?_, fun hcontra => absurd hcontra hr, ?_⟩
      · rw [List.map_append, List.map_append,
          try_candidates_none_fst net "rtsp" urls.rtsp heq, map_pair_run,
          try_candidates_none_fst net "http_mjpeg" urls.http heq2, map_pair_run]
        unfold try_snapshot_candidates
        rw [map_pair_run]
        unfold spec_attempt_list
        rw [if_neg hr, if_neg hh]
      · intro hdisj hnil
        obtain ⟨h12, h3⟩ := List.append_eq_nil.mp hnil
        obtain ⟨h1, h2⟩ := List.append_eq_nil.mp h12
        rcases hdisj with hd | hd | hd
        · exact try_candidates_ne_nil net "rtsp" urls.rtsp hd h1
        · exact try_candidates_ne_nil net "http_mjpeg" urls.http hd h2
        · exact hd (List.map_eq_nil_iff.mp h3)

/-! ## Theorems about the stream broadcaster -/

/-- Helper: the net effect of the notification pass at one frame. -/
theorem filterMap_put {J : Type} (jpeg : J) :
    ∀ l : List (String × List J),
      l.filterMap (fun p => match put_nowait p.2 jpeg with
        | some q => some (p.1, q)
        | none => none)
      = (l.filter (fun p => decide (p.2.length < SUBSCRIBER_QUEUE_MAXSIZE))).map
          (fun p => (p.1, p.2 ++ [jpeg]))
  | [] => rfl
  | p :: rest => by
    by_cases h : p.2.length < SUBSCRIBER_QUEUE_MAXSIZE
    · have hput : put_nowait p.2 jpeg = some (p.2 ++ [jpeg]) := by
        simp [put_nowait, h]
      simp [List.filterMap_cons, List.filter_cons, hput, h,
        filterMap_put jpeg rest]
    · have hput : put_nowait p.2 jpeg = (none : Option (List J)) := by
        simp [put_nowait, h]
      simp [List.filterMap_cons, List.filter_cons, hput, h,
        filterMap_put jpeg rest]

/-- Claim C1 (amended): on each frame the producer pushes the encoded copy
into every subscriber queue without blocking (the pass is a total function of
the map); a subscriber whose queue has room stays subscribed and receives the
frame, and every such subscriber receives it even when another queue is full;
but a subscriber whose queue is full does not merely drop this frame — it is
removed from the subscriber map and receives nothing further. -/
theorem notifySubscribersDropPolicy {F J : Type} (encode : F → J)
    (subscribers : List (String × List J)) (frame : F) :
    notify_subscribers encode subscribers frame
      = (subscribers.filter
          (fun p => decide (p.2.length < SUBSCRIBER_QUEUE_MAXSIZE))).map
          (fun p => (p.1, p.2 ++ [encode frame]))
    ∧ ∀ p ∈ subscribers, p.2.length < SUBSCRIBER_QUEUE_MAXSIZE →
        (p.1, p.2 ++ [encode frame])
          ∈ notify_subscribers encode subscribers frame := by
  have hmain : notify_subscribers encode subscribers frame
      = (subscribers.filter
          (fun p => decide (p.2.length < SUBSCRIBER_QUEUE_MAXSIZE))).map
          (fun p => (p.1, p.2 ++ [encode frame])) :=
    filterMap_put (encode frame) subscribers
  refine ⟨hmain, fun p hp hlen => ?_⟩
  rw [hmain]
  refine List.mem_map.mpr ⟨p, ?_, rfl⟩
  rw [List.mem_filter]
  exact ⟨hp, by simpa using hlen⟩

/-- Counterexample to claim C1 as stated: a subscriber whose queue is at
capacity does not remain subscribed — after the push fails it is popped from
the subscriber map, while another subscriber still receives the frame. -/
theorem notifySubscribersFullQueueCounterexample :
    notify_subscribers (fun n : Nat => n)
      [("a", [0, 1, 2, 3, 4, 5, 6, 7, 8, 9]), ("b", [])] 42
      = [("b", [42])] := by
  decide

/-- Counterexample to claim C2 as stated: calling `start_stream` twice in
immediate succession for the same device (before the capture loop has marked
the session running) returns True both times but creates a second capture
session: the second call replaces the stored session and starts a second
capture thread, while the first thread's stop event is never set. -/
theorem startStreamSecondThreadCounterexample :
    (start_stream (start_stream StreamManagerState.empty 1 "rtsp://cam" "Cam").2
        1 "rtsp://cam" "Cam").1 = true
    ∧ (start_stream (start_stream StreamManagerState.empty 1 "rtsp://cam" "Cam").2
        1 "rtsp://cam" "Cam").2.threads_started 1 = 2 := by
  decide

/-- Claim C2 (amended): a second `start_stream` for a device that already has
a session always returns True; when that session is marked running, no second
capture session or thread is created and the state is unchanged.  (When the
session exists but is not yet — or no longer — marked running, the session is
replaced and a second capture thread is started, as the counterexample
shows.) -/
theorem startStreamSecondCall (s : StreamManagerState) (camera_id : ℤ)
    (rtsp_url name : String) (st : CameraStream)
    (hs : s.streams camera_id = some st) :
    (start_stream s camera_id rtsp_url name).1 = true
    ∧ (st.is_running = true →
        start_stream s camera_id rtsp_url name = (true, s)) := by
  constructor
  · unfold start_stream
    by_cases h : stream_already_running s camera_id <;> simp [h]
  · intro hrun
    have h1 : stream_already_running s camera_id = true := by
      unfold stream_already_running
      rw [hs]
      exact hrun
    unfold start_stream
    rw [h1]
    simp

/-- Witness for C2 (amended) at a state whose capture loop has connected. -/
theorem startStreamSecondCallWitness :
    (start_stream exampleRunningManagerState 1 "rtsp://cam" "Cam").1 = true
    ∧ ((CameraStream.mk 1 "rtsp://cam" "Cam" true).is_running = true →
        start_stream exampleRunningManagerState 1 "rtsp://cam" "Cam"
          = (true, exampleRunningManagerState)) :=
  startStreamSecondCall exampleRunningManagerState 1 "rtsp://cam" "Cam"
    (CameraStream.mk 1 "rtsp://cam" "Cam" true) (by decide)

/-! ## Theorems about the discovery scanner -/

/-- Helper: the receive loop processes exactly the first reply per source
address, skips the undecodable ones and appends one parsed record per
decodable one. -/
theorem discover_loop_characterization :
    ∀ (replies : List (String × ProbeReply)) (found : List String)
      (cams : List ONVIFCamera),
      discover_loop found cams replies
        = cams ++ (first_replies found replies).filterMap
            (fun p => match p.2 with
              | ProbeReply.undecodable => none
              | ProbeReply.decoded xml => some (parse_probe_response xml p.1))
  | [], found, cams => by simp [discover_loop, first_replies]
  | (ip, r) :: rest, found, cams => by
    by_cases h : ip ∈ found
    · simp [discover_loop, first_replies, h,
        discover_loop_characterization rest found cams]
    · cases r with
      | undecodable =>
        simp [discover_loop, first_replies, h, List.filterMap_cons,
          discover_loop_characterization rest (ip :: found) cams]
      | decoded xml =>
        simp [discover_loop, first_replies, h, List.filterMap_cons,
          discover_loop_characterization rest (ip :: found)
            (cams ++ [parse_probe_response xml ip])]

/-- Claim C10 (amended): a reply whose bytes fail UTF-8 decoding is dropped,
but a decodable reply whose XML is malformed is not dropped: the scanner
keeps a fallback device record (default port, name derived from the source
address) for it; only the first reply per source address is considered. -/
theorem discoverDropAndFallbackPolicy (replies : List (String × ProbeReply)) :
    discover replies
      = (first_replies [] replies).filterMap
          (fun p => match p.2 with
            | ProbeReply.undecodable => none
            | ProbeReply.decoded xml => some (parse_probe_response xml p.1))
    ∧ ∀ p ∈ first_replies [] replies,
        p.2 = ProbeReply.decoded ProbeXML.malformed →
          fallback_camera p.1 ∈ discover replies := by
  have hmain := discover_loop_characterization replies [] []
  rw [List.nil_append] at hmain
  have hd : discover replies
      = (first_replies [] replies).filterMap
          (fun p => match p.2 with
            | ProbeReply.undecodable => none
            | ProbeReply.decoded xml => some (parse_probe_response xml p.1)) :=
    hmain
  refine ⟨hd, fun p hp hmal => ?_⟩
  rw [hd]
  refine List.mem_filterMap.mpr ⟨p, hp, ?_⟩
  rw [hmal]
  rfl

/-- Counterexample to claim C10 as stated: a decodable but XML-malformed
reply is not dropped — a device record for its source address appears in the
returned list. -/
theorem discoverMalformedReplyCounterexample :
    "10.0.0.7" ∈ (discover
      [("10.0.0.7", ProbeReply.decoded ProbeXML.malformed)]).map
      ONVIFCamera.ip := by
  have h : (discover
      [("10.0.0.7", ProbeReply.decoded ProbeXML.malformed)]).map
      ONVIFCamera.ip = ["10.0.0.7"] := rfl
  rw [h]
  exact List.mem_singleton.mpr rfl
